import Mathlib

/-!
Verification of the heuristic prescription parser
(`src/services/PrescriptionParser.ts` of the doc-prescription repository).

The parser is a rule-based information extractor: it joins transcript
utterances into one text blob and runs a battery of JavaScript regular
expressions over it to populate a structured `PrescriptionDocument`.

This file gives a shallow embedding of that code:
* strings are `List Char` (`Str`);
* every JavaScript regular expression literal of the source is written as a
  `Re` syntax tree, and one fueled backtracking matcher `mat` implements the
  ECMAScript matching discipline the source relies on (leftmost match,
  ordered alternation, greedy / lazy quantifiers, capture groups, the `i`
  flag, word boundaries, `$`, and `.` not matching a newline);
* each `extract…` method and `parse` itself is translated function by
  function;
* the wall-clock timestamp `new Date().toISOString()` is hoisted into an
  explicit `now` argument so that `parse` is a pure function, exactly as the
  source is apart from that one call.
-/

set_option linter.unusedVariables false

/-! ## Strings as character lists -/

abbrev Str := List Char

/-- Shorthand for turning a string literal into the `List Char`
representation used throughout. -/
def str (s : String) : Str := s.data

/-- ASCII whitespace, the subset of the ECMAScript `\s` class that can occur
in the parser's inputs (space, tab, newline, carriage return, vertical tab,
form feed). -/
def isSpaceJS (c : Char) : Bool :=
  c = ' ' || c = '\t' || c = '\n' || c = '\r' || c = '\x0b' || c = '\x0c'

/-- ECMAScript `\w`: ASCII letters, digits and underscore. -/
def isWordJS (c : Char) : Bool :=
  ('a' ≤ c && c ≤ 'z') || ('A' ≤ c && c ≤ 'Z') || ('0' ≤ c && c ≤ '9') || c = '_'

/-- ECMAScript `\d`. -/
def isDigitJS (c : Char) : Bool := '0' ≤ c && c ≤ '9'

/-- Swap the case of an ASCII letter (used for the `i` flag). -/
def swapCase (c : Char) : Char :=
  if 'a' ≤ c && c ≤ 'z' then Char.ofNat (c.toNat - 32)
  else if 'A' ≤ c && c ≤ 'Z' then Char.ofNat (c.toNat + 32)
  else c

/-- `String.prototype.trim`: strip whitespace from both ends. -/
def jsTrim (s : Str) : Str :=
  ((s.dropWhile isSpaceJS).reverse.dropWhile isSpaceJS).reverse

/-- `String.prototype.slice(a, b)` for `0 ≤ a ≤ b`. -/
def sliceJS (s : Str) (a b : Nat) : Str := (s.drop a).take (b - a)

/-- `s.replace(pat, "")` where `pat` is a plain string: remove the first
literal occurrence of `pat`, if any. -/
def replaceFirst (s pat : Str) : Str :=
  match s with
  | [] => []
  | c :: tl => if pat.isPrefixOf (c :: tl) then tl.drop (pat.length - 1)
               else c :: replaceFirst tl pat

/-- `s.replace(/\s+/g, " ")`: collapse every maximal whitespace run into a
single space.  The flag records whether we are inside a run already
replaced. -/
def collapseWsGo : Bool → Str → Str
  | _, [] => []
  | inRun, c :: tl =>
    if isSpaceJS c then
      if inRun then collapseWsGo true tl else ' ' :: collapseWsGo true tl
    else c :: collapseWsGo false tl

def collapseWs (s : Str) : Str := collapseWsGo false s

/-- `s.replace(/^[,\s]+|[,\s]+$/g, "")`: drop the leading and the trailing
run of commas/whitespace. -/
def trimCommaWs (s : Str) : Str :=
  let p := fun c => c = ',' || isSpaceJS c
  ((s.dropWhile p).reverse.dropWhile p).reverse

/-- JavaScript truthiness of a possibly-undefined string
(`undefined` and `""` are falsy). -/
def jsTruthy : Option Str → Bool
  | none => false
  | some s => !s.isEmpty

/-- `x || undefined` for a string `x`. -/
def orUndef (s : Str) : Option Str := if s.isEmpty then none else some s

/-- `s.includes(sub)`. -/
def includesJS (s sub : Str) : Bool :=
  (List.range (s.length + 1)).any fun i => sub.isPrefixOf (s.drop i)

/-! ## ECMAScript regular expressions

`Re` is the syntax of the regex literals appearing in the source file;
`mat` is a continuation-passing backtracking matcher implementing the
ECMAScript ordering (alternatives left to right, greedy quantifiers try the
longer match first, lazy quantifiers the shorter, a quantified expression
never iterates on an empty match).  The `Nat` fuel only bounds the depth of
the backtracking search so that the definition is structurally recursive;
`fuelFor` is far above what any search path can use. -/

/-- One item of a character class. -/
inductive CItem where
  | rng (lo hi : Char)
  | one (c : Char)
  | digit
  | space
  | word
deriving DecidableEq, Repr

def ciHit : CItem → Char → Bool
  | .rng lo hi, c => lo ≤ c && c ≤ hi
  | .one d, c => c = d
  | .digit, c => isDigitJS c
  | .space, c => isSpaceJS c
  | .word, c => isWordJS c

/-- Class membership; under the `i` flag the other-case letter also counts
(ECMAScript canonicalisation, restricted to ASCII). -/
def clsHit (ci : Bool) (items : List CItem) (c : Char) : Bool :=
  items.any fun it => ciHit it c || (ci && ciHit it (swapCase c))

/-- Character comparison for a literal pattern character. -/
def chHit (ci : Bool) (pc c : Char) : Bool :=
  pc = c || (ci && swapCase pc = c)

/-- Regex syntax.  `star`/`opt` carry their laziness; `grp` is a numbered
capturing group; `wb` is `\b`; `eos` is `$`; `dot` is `.`. -/
inductive Re where
  | eps
  | ch (c : Char)
  | cls (items : List CItem)
  | dot
  | eos
  | wb
  | seq (a b : Re)
  | alt (a b : Re)
  | star (lzy : Bool) (r : Re)
  | opt (lzy : Bool) (r : Re)
  | grp (i : Nat) (r : Re)
deriving Repr

def Re.size : Re → Nat
  | .eps | .ch _ | .cls _ | .dot | .eos | .wb => 1
  | .seq a b | .alt a b => a.size + b.size + 1
  | .star _ r | .opt _ r | .grp _ r => r.size + 1

/-- Capture record: `(group index, start, stop)`; the head of the list is
the most recent write, unrecorded groups are `undefined`. -/
abbrev Caps := List (Nat × Nat × Nat)

/-- The backtracking matcher.  State: current position `i`, remaining input
`rest`, previous character `prv` (for `\b`), captures `caps`; `k` is the
continuation receiving the state after this regex.  Returns the end
position and captures of the first (ECMAScript-ordered) way to complete the
whole match, or `none`. -/
def mat (ci : Bool) : Nat → Re → Nat → Str → Option Char → Caps →
    (Nat → Str → Option Char → Caps → Option (Nat × Caps)) → Option (Nat × Caps)
  | 0, _, _, _, _, _, _ => none
  | Nat.succ f, re, i, rest, prv, caps, k =>
    match re with
    | .eps => k i rest prv caps
    | .ch c =>
      match rest with
      | [] => none
      | d :: tl => if chHit ci c d then k (i+1) tl (some d) caps else none
    | .cls its =>
      match rest with
      | [] => none
      | d :: tl => if clsHit ci its d then k (i+1) tl (some d) caps else none
    | .dot =>
      match rest with
      | [] => none
      | d :: tl => if d = '\n' || d = '\r' then none else k (i+1) tl (some d) caps
    | .eos =>
      match rest with
      | [] => k i rest prv caps
      | _ => none
    | .wb =>
      let a := match prv with | some c => isWordJS c | none => false
      let b := match rest with | d :: _ => isWordJS d | [] => false
      if a != b then k i rest prv caps else none
    | .seq a b =>
      mat ci f a i rest prv caps fun i' r' p' c' => mat ci f b i' r' p' c' k
    | .alt a b =>
      Option.orElse (mat ci f a i rest prv caps k) fun _ =>
        mat ci f b i rest prv caps k
    | .opt lzy r =>
      if lzy then
        Option.orElse (k i rest prv caps) fun _ => mat ci f r i rest prv caps k
      else
        Option.orElse (mat ci f r i rest prv caps k) fun _ => k i rest prv caps
    | .star lzy r =>
      if lzy then
        Option.orElse (k i rest prv caps) fun _ =>
          mat ci f r i rest prv caps fun i' r' p' c' =>
            if i < i' then mat ci f (.star lzy r) i' r' p' c' k else none
      else
        Option.orElse
          (mat ci f r i rest prv caps fun i' r' p' c' =>
            if i < i' then mat ci f (.star lzy r) i' r' p' c' k else none)
          fun _ => k i rest prv caps
    | .grp gi r =>
      mat ci f r i rest prv caps fun i' r' p' c' => k i' r' p' ((gi, i, i') :: c')

/-- A successful regex match: `start` is `m.index`, `stop` the end of
`m[0]`, `caps` the capture records. -/
structure MatchRes where
  start : Nat
  stop : Nat
  caps : Caps
deriving DecidableEq, Repr

/-- `m[0]`. -/
def MatchRes.m0 (m : MatchRes) (s : Str) : Str := sliceJS s m.start m.stop

/-- `m[g]` for `g ≥ 1`: `none` is JavaScript's `undefined`. -/
def MatchRes.grpGet (m : MatchRes) (s : Str) (g : Nat) : Option Str :=
  (m.caps.find? fun t => t.1 = g).map fun t => sliceJS s t.2.1 t.2.2

/-- Fuel amply covering any backtracking path of `re` over `s`. -/
def fuelFor (re : Re) (s : Str) : Nat := (s.length + 2) * (re.size + 2)

/-- The top-level continuation: accept wherever the regex completes. -/
def kTop : Nat → Str → Option Char → Caps → Option (Nat × Caps) :=
  fun e _ _ cps => some (e, cps)

/-- Leftmost match: try each start position in order.  `rest`, `i`, `prv`
walk over the suffixes of the subject. -/
def findAux (ci : Bool) (re : Re) (fuel : Nat) : Str → Nat → Option Char → Option MatchRes
  | rest, i, prv =>
    match mat ci fuel re i rest prv [] kTop with
    | some (e, cps) => some ⟨i, e, cps⟩
    | none =>
      match rest with
      | [] => none
      | d :: tl => findAux ci re fuel tl (i+1) (some d)

/-- The character before position `p` (for `\b` at a non-zero start). -/
def prevAt (s : Str) (p : Nat) : Option Char :=
  if p = 0 then none else (s.drop (p-1)).head?

/-- Leftmost match at or after position `p` (the `lastIndex` based search of
a global regex). -/
def findFromPos (ci : Bool) (re : Re) (s : Str) (fuel : Nat) (p : Nat) : Option MatchRes :=
  findAux ci re fuel (s.drop p) p (prevAt s p)

/-- `s.match(re)` for a regex without the `g` flag (also the engine behind
`.test` and `.search`). -/
def jsMatch (ci : Bool) (re : Re) (s : Str) : Option MatchRes :=
  findFromPos ci re s (fuelFor re s) 0

/-- `re.test(s)`. -/
def jsTest (ci : Bool) (re : Re) (s : Str) : Bool := (jsMatch ci re s).isSome

/-- `s.search(re)`: index of the first match, if any. -/
def jsSearch (ci : Bool) (re : Re) (s : Str) : Option Nat :=
  (jsMatch ci re s).map MatchRes.start

/-- The `while ((m = re.exec(text)) !== null)` loop over a global regex:
collect successive matches, resuming at `lastIndex`.  (All regexes in the
source only produce non-empty matches, so resuming at `m.stop` always makes
progress; the `p+1` fallback is unreachable for them.) -/
def execAllAux (ci : Bool) (re : Re) (s : Str) (fuel : Nat) : Nat → Nat → List MatchRes
  | 0, _ => []
  | Nat.succ it, p =>
    match findFromPos ci re s fuel p with
    | none => []
    | some m => m :: execAllAux ci re s fuel it (if p < m.stop then m.stop else p+1)

def jsExecAll (ci : Bool) (re : Re) (s : Str) : List MatchRes :=
  execAllAux ci re s (fuelFor re s) (s.length + 2) 0

/-- `s.split(re)`: the segments between successive matches of the
separator. -/
def splitSegs (s : Str) : Nat → List MatchRes → List Str
  | p, [] => [sliceJS s p s.length]
  | p, m :: ms => sliceJS s p m.start :: splitSegs s m.stop ms

def jsSplit (ci : Bool) (re : Re) (s : Str) : List Str :=
  splitSegs s 0 (jsExecAll ci re s)

/-! ### Derived regex constructors (mirroring regex literal concrete syntax) -/

/-- Concatenation of a list of regexes. -/
def cats : List Re → Re
  | [] => .eps
  | [r] => r
  | r :: rs => .seq r (cats rs)

/-- Ordered alternation `a|b|…`. -/
def alts : List Re → Re
  | [] => .eps
  | [r] => r
  | r :: rs => .alt r (alts rs)

/-- A literal string. -/
def lit (s : String) : Re := cats (s.data.map Re.ch)

/-- `r+` (greedy). -/
def plus (r : Re) : Re := .seq r (.star false r)

/-- `r+?` (lazy). -/
def plusL (r : Re) : Re := .seq r (.star true r)

/-- `r` repeated exactly `n` times. -/
def repN : Nat → Re → Re
  | 0, _ => .eps
  | Nat.succ n, r => .seq r (repN n r)

/-- `\s` -/
def wsC : Re := .cls [.space]
/-- `\s*` -/
def wsS : Re := .star false wsC
/-- `\s+` -/
def wsP : Re := plus wsC
/-- `\d` -/
def digC : Re := .cls [.digit]
/-- `\w` -/
def wordC : Re := .cls [.word]
/-- `[A-Z]` -/
def upperC : Re := .cls [.rng 'A' 'Z']
/-- `[a-z]` -/
def lowerC : Re := .cls [.rng 'a' 'z']
/-- `[a-zA-Z]` -/
def letterC : Re := .cls [.rng 'a' 'z', .rng 'A' 'Z']

/-! ## The regex literals of `PrescriptionParser.ts`

Each definition below is one regex literal of the source, written as a `Re`
tree; the original literal is quoted in the doc comment.  Group numbers
match the source.  Whether a regex carries the `i` flag is recorded at its
use site (the `ci` argument of the engine functions). -/

/-- `[:\-]` -/
def colonC : Re := .cls [.one ':', .one '-']

/-- `[A-Z][a-z]+`, one capitalised name word. -/
def nameWord : Re := .seq upperC (plus lowerC)

/-- `([A-Z][a-z]+(?:\s+[A-Z][a-z]+)*)`, group 1 of every name pattern. -/
def nameGrp : Re := .grp 1 (.seq nameWord (.star false (.seq wsP nameWord)))

/-- The five patterns of `extractName`, in source order (no flags):
`/Patient\s+(…)/`, `/Name:\s*(…)/`, `/Mr\.?\s+(…)/`, `/Mrs\.?\s+(…)/`,
`/Ms\.?\s+(…)/`. -/
def namePatterns : List Re :=
  [ cats [lit "Patient", wsP, nameGrp]
  , cats [lit "Name:", wsS, nameGrp]
  , cats [lit "Mr", .opt false (.ch '.'), wsP, nameGrp]
  , cats [lit "Mrs", .opt false (.ch '.'), wsP, nameGrp]
  , cats [lit "Ms", .opt false (.ch '.'), wsP, nameGrp] ]

/-- `\d{1,3}` (greedy). -/
def d13 : Re := .seq digC (.opt false (.seq digC (.opt false digC)))

/-- `\d{2,3}` (greedy). -/
def d23 : Re := .seq digC (.seq digC (.opt false digC))

/-- `/(\d{1,3})\s*-?\s*(?:year\s*old|y\/o|years\s*old)/i` -/
def ageRe : Re :=
  cats [.grp 1 d13, wsS, .opt false (.ch '-'), wsS,
        alts [cats [lit "year", wsS, lit "old"], lit "y/o",
              cats [lit "years", wsS, lit "old"]]]

/-- `/\bmale\b/i` -/
def maleRe : Re := cats [.wb, lit "male", .wb]

/-- `/\bfemale\b/i` -/
def femaleRe : Re := cats [.wb, lit "female", .wb]

/-- `/(?:phone|contact)\s*[:\-]?\s*(\+?\d[\d\s\-]{7,}\d)/i` -/
def phoneRe : Re :=
  cats [alts [lit "phone", lit "contact"], wsS, .opt false colonC, wsS,
        .grp 1 (cats [.opt false (.ch '+'), digC,
                      .seq (repN 7 (.cls [.digit, .space, .one '-']))
                           (.star false (.cls [.digit, .space, .one '-'])),
                      digC])]

/-- `/[a-zA-Z0-9._%+-]+@[a-zA-Z0-9.-]+\.[a-zA-Z]{2,}/` (no flags) -/
def emailRe : Re :=
  cats [plus (.cls [.rng 'a' 'z', .rng 'A' 'Z', .rng '0' '9', .one '.', .one '_',
                    .one '%', .one '+', .one '-']),
        .ch '@',
        plus (.cls [.rng 'a' 'z', .rng 'A' 'Z', .rng '0' '9', .one '.', .one '-']),
        .ch '.', letterC, letterC, .star false letterC]

/-- `/address\s*[:\-]?\s*(.+)/i` -/
def addressRe : Re :=
  cats [lit "address", wsS, .opt false colonC, wsS, .grp 1 (plus .dot)]

/-- `/(past\s*medical\s*history|history)\s*[:\-]/i` -/
def historyHeadRe : Re :=
  cats [.grp 1 (alts [cats [lit "past", wsS, lit "medical", wsS, lit "history"],
                      lit "history"]), wsS, colonC]

/-- `/allergies\s*[:\-]/i` -/
def allergiesHeadRe : Re := cats [lit "allergies", wsS, colonC]

/-- `/(current\s*medications|medications\s*currently)\s*[:\-]/i` -/
def currentMedsHeadRe : Re :=
  cats [.grp 1 (alts [cats [lit "current", wsS, lit "medications"],
                      cats [lit "medications", wsS, lit "currently"]]), wsS, colonC]

/-- `/(assessment|conditions|presents\s*with|diagnosed\s*with)\s*[:\-]/i` -/
def conditionsHeadRe : Re :=
  cats [.grp 1 (alts [lit "assessment", lit "conditions",
                      cats [lit "presents", wsS, lit "with"],
                      cats [lit "diagnosed", wsS, lit "with"]]), wsS, colonC]

/-- `/\b(\d{2,3}\/\d{2,3})\b\s*(?:mmHg)?/` (no flags) -/
def bpRe : Re :=
  cats [.wb, .grp 1 (cats [d23, .ch '/', d23]), .wb, wsS, .opt false (lit "mmHg")]

/-- `/\b(\d{2,3})\s*bpm\b/i` -/
def hrRe : Re := cats [.wb, .grp 1 d23, wsS, lit "bpm", .wb]

/-- `/\b(\d{2})\s*(?:breaths\/?min|min)\b/i` -/
def rrRe : Re :=
  cats [.wb, .grp 1 (.seq digC digC), wsS,
        alts [cats [lit "breaths", .opt false (.ch '/'), lit "min"], lit "min"], .wb]

/-- `/\b(\d{2,3}(?:\.\d)?)\s*(?:F|C)\b/` (no flags) -/
def tempRe : Re :=
  cats [.wb, .grp 1 (.seq d23 (.opt false (.seq (.ch '.') digC))), wsS,
        alts [.ch 'F', .ch 'C'], .wb]

/-- `/\b(\d{2,3})%\b/` (no flags) -/
def spo2Re : Re := cats [.wb, .grp 1 d23, .ch '%', .wb]

/-- `/(exam(?:ination)?\s*(?:findings)?|physical\s*exam)\s*[:\-]/i` -/
def examHeadRe : Re :=
  cats [.grp 1 (alts [cats [lit "exam", .opt false (lit "ination"), wsS,
                            .opt false (lit "findings")],
                      cats [lit "physical", wsS, lit "exam"]]), wsS, colonC]

/-- `/diagnosis\s*[:\-]/i` -/
def diagnosisHeadRe : Re := cats [lit "diagnosis", wsS, colonC]

/-- `/(differentials|ddx)\s*[:\-]/i` -/
def diffsHeadRe : Re :=
  cats [.grp 1 (alts [lit "differentials", lit "ddx"]), wsS, colonC]

/-- `/(instructions|patient\s*education)\s*[:\-]/i` -/
def instrHeadRe : Re :=
  cats [.grp 1 (alts [lit "instructions", cats [lit "patient", wsS, lit "education"]]),
        wsS, colonC]

/-- `/(precautions|warnings)\s*[:\-]/i` -/
def precautionsHeadRe : Re :=
  cats [.grp 1 (alts [lit "precautions", lit "warnings"]), wsS, colonC]

/-- `/notes\s*[:\-]/i` -/
def notesHeadRe : Re := cats [lit "notes", wsS, colonC]

/-- `/(overview|summary)\s*[:\-]/i` -/
def overviewHeadRe : Re :=
  cats [.grp 1 (alts [lit "overview", lit "summary"]), wsS, colonC]

/-- `/(key\s*findings)\s*[:\-]/i` -/
def keyFindingsHeadRe : Re :=
  cats [.grp 1 (cats [lit "key", wsS, lit "findings"]), wsS, colonC]

/-- `/(decisions|plan)\s*[:\-]/i` -/
def decisionsHeadRe : Re :=
  cats [.grp 1 (alts [lit "decisions", lit "plan"]), wsS, colonC]

/-- `/(follow\s*up|follow-up\s*recommendations)\s*[:\-]/i` -/
def followUpHeadRe : Re :=
  cats [.grp 1 (alts [cats [lit "follow", wsS, lit "up"],
                      cats [lit "follow-up", wsS, lit "recommendations"]]), wsS, colonC]

/-- `/(special\s*instructions)\s*[:\-]/i` -/
def specialInstrHeadRe : Re :=
  cats [.grp 1 (cats [lit "special", wsS, lit "instructions"]), wsS, colonC]

/-- `/\n/` (the line splitter). -/
def nlRe : Re := .ch '\n'

/-- `/\n|;|\./` (examination block line splitter). -/
def examSepRe : Re := alts [.ch '\n', .ch ';', .ch '.']

/-- `/:\s*/` (examination line `system: description` splitter). -/
def colonWsRe : Re := .seq (.ch ':') wsS

/-- `/\n|;|\.|,/` (the list splitter of `extractListAfter`). -/
def listSepRe : Re := alts [.ch '\n', .ch ';', .ch '.', .ch ',']

/-- `/\n\s*[A-Z][A-Za-z\s]*\s*[:\-]/` — the "next section header" boundary
searched by `extractBlock` (no flags). -/
def boundaryRe : Re :=
  cats [.ch '\n', wsS, upperC, .star false (.cls [.rng 'A' 'Z', .rng 'a' 'z', .space]),
        wsS, colonC]

/-! ### The medication battery -/

/-- `[A-Z][a-zA-Z]+`, one drug-name word. -/
def medWord : Re := .seq upperC (plus letterC)

/-- `([A-Z][a-zA-Z]+(?:\s+[A-Z][a-zA-Z]+)?(?:\s+[A-Z][a-zA-Z]+)?)` without
its group wrapper (1–3 words). -/
def medName : Re :=
  cats [medWord, .opt false (.seq wsP medWord), .opt false (.seq wsP medWord)]

/-- `(?:mg|mcg|g|ml|IU|%|units)` -/
def doseUnits : Re :=
  alts [lit "mg", lit "mcg", lit "g", lit "ml", lit "IU", lit "%", lit "units"]

/-- `\d+(?:\.\d+)?` -/
def doseNum : Re := .seq (plus digC) (.opt false (.seq (.ch '.') (plus digC)))

/-- `\d+(?:\.\d+)?\s*(?:mg|mcg|g|ml|IU|%|units)` -/
def doseBody : Re := cats [doseNum, wsS, doseUnits]

/-- `(?:for\s+([\w\s]+?))?` with the inner group numbered `g`. -/
def durOpt (g : Nat) : Re :=
  .opt false (cats [lit "for", wsP, .grp g (plusL (.cls [.word, .space]))])

/-- `(?:\.|\n|$)` -/
def termRe : Re := alts [.ch '.', .ch '\n', .eos]

/-- Pattern 1 (no flags, `g`):
`/(Take\s+)?([A-Z][a-zA-Z]+(?:\s+[A-Z][a-zA-Z]+)?(?:\s+[A-Z][a-zA-Z]+)?)\s+(\d+(?:\.\d+)?\s*(?:mg|mcg|g|ml|IU|%|units))\s*(.+?)(?:for\s+([\w\s]+?))?(?:\.|\n|$)/g` -/
def medRe1 : Re :=
  cats [.opt false (.grp 1 (.seq (lit "Take") wsP)), .grp 2 medName, wsP,
        .grp 3 doseBody, wsS, .grp 4 (plusL .dot), durOpt 5, termRe]

/-- Pattern 2 (`gi`):
`/prescribe\s+([A-Z]…)\s+(\d+(?:\.\d+)?\s*(?:mg|…))?\s*(.+?)(?:for\s+([\w\s]+?))?(?:\.|\n|$)/gi` -/
def medRe2 : Re :=
  cats [lit "prescribe", wsP, .grp 1 medName, wsP, .opt false (.grp 2 doseBody),
        wsS, .grp 3 (plusL .dot), durOpt 4, termRe]

/-- Pattern 3 (`gi`): same as pattern 2 with the verb `start`. -/
def medRe3 : Re :=
  cats [lit "start", wsP, .grp 1 medName, wsP, .opt false (.grp 2 doseBody),
        wsS, .grp 3 (plusL .dot), durOpt 4, termRe]

/-- Pattern 4 (`gi`): same as pattern 2 with the verb `continue`. -/
def medRe4 : Re :=
  cats [lit "continue", wsP, .grp 1 medName, wsP, .opt false (.grp 2 doseBody),
        wsS, .grp 3 (plusL .dot), durOpt 4, termRe]

/-- Pattern 5 (`gi`):
`/([A-Z]…)\s+(\d+(?:\.\d+)?\s*(?:mg|…)),?\s+(\d+(?:\.\d+)?)\s+(?:tablet|capsule|pill|dose)s?\s+(.+?)(?:for\s+([\w\s]+?))?(?:\.|\n|$)/gi` -/
def medRe5 : Re :=
  cats [.grp 1 medName, wsP, .grp 2 doseBody, .opt false (.ch ','), wsP,
        .grp 3 doseNum, wsP,
        alts [lit "tablet", lit "capsule", lit "pill", lit "dose"],
        .opt false (.ch 's'), wsP, .grp 4 (plusL .dot), durOpt 5, termRe]

/-- `(?:nasal\s+spray|cream|ointment|solution|inhaler|drops)` -/
def formAlt : Re :=
  alts [cats [lit "nasal", wsP, lit "spray"], lit "cream", lit "ointment",
        lit "solution", lit "inhaler", lit "drops"]

/-- Pattern 6 (`gi`):
`/([A-Z]…)\s+(?:nasal\s+spray|cream|ointment|solution|inhaler|drops),?\s+(.+?)(?:\.|\n|$)/gi` -/
def medRe6 : Re :=
  cats [.grp 1 medName, wsP, formAlt, .opt false (.ch ','), wsP,
        .grp 2 (plusL .dot), termRe]

/-- Pattern 7 (`gi`):
`/([A-Z]…)\s+as\s+needed\s+for\s+(.+?)(?:\.|\n|$)/gi` -/
def medRe7 : Re :=
  cats [.grp 1 medName, wsP, lit "as", wsP, lit "needed", wsP, lit "for", wsP,
        .grp 2 (plusL .dot), termRe]

/-- The battery in source order, paired with its `i` flag. -/
def medRegexList : List (Bool × Re) :=
  [(false, medRe1), (true, medRe2), (true, medRe3), (true, medRe4),
   (true, medRe5), (true, medRe6), (true, medRe7)]

/-- `/tablet|capsule|pill|dose/i` (branch dispatch inside the loop). -/
def tabletTestRe : Re := alts [lit "tablet", lit "capsule", lit "pill", lit "dose"]

/-- `/nasal\s+spray|cream|ointment|solution|inhaler|drops/i` -/
def formTestRe : Re := formAlt

/-- `/as\s+needed\s+for/i` -/
def prnTestRe : Re := cats [lit "as", wsP, lit "needed", wsP, lit "for"]

/-- `/for\s+([\w\s]+?)(?:\.|\n|$)/i` (duration re-extraction in the
formulation branch). -/
def durInM0Re : Re :=
  cats [lit "for", wsP, .grp 1 (plusL (.cls [.word, .space])), termRe]

/-- `/(once|twice|thrice|every\s+\d+\s*(?:hours|hour|days|day)|daily|bid|tid|qid|q\d+h|with\s+meals|at\s+bedtime|in\s+the\s+morning|in\s+the\s+evening|as\s+needed|prn)/i` -/
def freqRe : Re :=
  .grp 1 (alts
    [ lit "once", lit "twice", lit "thrice"
    , cats [lit "every", wsP, plus digC, wsS,
            alts [lit "hours", lit "hour", lit "days", lit "day"]]
    , lit "daily", lit "bid", lit "tid", lit "qid"
    , cats [.ch 'q', plus digC, .ch 'h']
    , cats [lit "with", wsP, lit "meals"]
    , cats [lit "at", wsP, lit "bedtime"]
    , cats [lit "in", wsP, lit "the", wsP, lit "morning"]
    , cats [lit "in", wsP, lit "the", wsP, lit "evening"]
    , cats [lit "as", wsP, lit "needed"]
    , lit "prn" ])

/-- `/\b(PO|oral|by\s+mouth|IM|intramuscular|IV|intravenous|SC|subcutaneous|topical|inhaled|sublingual|nasal|ophthalmic|otic)\b/i` -/
def routeRe : Re :=
  cats [.wb, .grp 1 (alts
    [ lit "PO", lit "oral", cats [lit "by", wsP, lit "mouth"]
    , lit "IM", lit "intramuscular", lit "IV", lit "intravenous"
    , lit "SC", lit "subcutaneous", lit "topical", lit "inhaled"
    , lit "sublingual", lit "nasal", lit "ophthalmic", lit "otic" ]), .wb]

/-- `/oral|by\s+mouth/i` (route standardisation test). -/
def routeOralRe : Re := alts [lit "oral", cats [lit "by", wsP, lit "mouth"]]

/-- `/once\s+daily|daily/i` -/
def freqOnceRe : Re := alts [cats [lit "once", wsP, lit "daily"], lit "daily"]

/-- `/twice\s+daily|bid/i` -/
def freqTwiceRe : Re := alts [cats [lit "twice", wsP, lit "daily"], lit "bid"]

/-- `/three\s+times\s+daily|thrice\s+daily|tid/i` -/
def freqThreeRe : Re :=
  alts [cats [lit "three", wsP, lit "times", wsP, lit "daily"],
        cats [lit "thrice", wsP, lit "daily"], lit "tid"]

/-- `/four\s+times\s+daily|qid/i` -/
def freqFourRe : Re :=
  alts [cats [lit "four", wsP, lit "times", wsP, lit "daily"], lit "qid"]

/-- `/as\s+needed|prn/i` -/
def freqPrnRe : Re := alts [cats [lit "as", wsP, lit "needed"], lit "prn"]

/-- `/avoid|do\s+not|warning|caution|alert|contraindication/i` (warning line
filter). -/
def warnRe : Re :=
  alts [lit "avoid", cats [lit "do", wsP, lit "not"], lit "warning",
        lit "caution", lit "alert", lit "contraindication"]

/-- `/(?:take\s+all\s+medications|all\s+medications\s+should\s+be\s+taken)\s+(.+?)(?:\.|\n|$)/i` -/
def specialAllRe : Re :=
  cats [alts [cats [lit "take", wsP, lit "all", wsP, lit "medications"],
              cats [lit "all", wsP, lit "medications", wsP, lit "should", wsP,
                    lit "be", wsP, lit "taken"]],
        wsP, .grp 1 (plusL .dot), termRe]

/-! ## The data model (`src/types/prescription.ts`, `transcription.ts`)

Optional TypeScript fields become `Option`; `undefined` is `none`.  The
numeric utterance fields are carried (the parser never reads them); `text`
is `Option Str` because `parse` guards it with `u.text ?? ""`. -/

structure TranscriptUtterance where
  id : Str := []
  speaker : Str := []
  text : Option Str := none
  startMs : Nat := 0
  endMs : Nat := 0
  confidence : Nat := 0
deriving DecidableEq, Repr

structure ContactDetails where
  phone : Option Str := none
  email : Option Str := none
  address : Option Str := none
deriving DecidableEq, Repr

structure PatientDemographics where
  name : Option Str := none
  age : Option Nat := none
  gender : Option Str := none
  contact : Option ContactDetails := none
deriving DecidableEq, Repr

structure VitalSigns where
  bloodPressure : Option Str := none
  heartRate : Option Str := none
  respiratoryRate : Option Str := none
  temperature : Option Str := none
  spo2 : Option Str := none
deriving DecidableEq, Repr

structure ExaminationFinding where
  system : Option Str := none
  description : Str := []
deriving DecidableEq, Repr

structure MedicalHistory where
  pastConditions : List Str := []
  allergies : List Str := []
  medicationsCurrently : Option (List Str) := none
deriving DecidableEq, Repr

structure Diagnosis where
  primary : Option Str := none
  differentials : Option (List Str) := none
deriving DecidableEq, Repr

structure Medication where
  name : Str
  dose : Option Str := none
  frequency : Option Str := none
  route : Option Str := none
  duration : Option Str := none
  instructions : Option Str := none
  warnings : Option (List Str) := none
deriving DecidableEq, Repr

structure PrescriptionInstructions where
  general : List Str := []
  precautions : List Str := []
deriving DecidableEq, Repr

structure ConsultationSummary where
  overview : Option Str := none
  keyFindings : List Str := []
  decisions : List Str := []
  followUp : Option Str := none
  specialInstructions : Option Str := none
deriving DecidableEq, Repr

structure PrescriptionDocument where
  patient : PatientDemographics
  history : Option MedicalHistory := none
  currentConditions : Option (List Str) := none
  vitals : Option VitalSigns := none
  examination : Option (List ExaminationFinding) := none
  diagnosis : Option Diagnosis := none
  medications : List Medication := []
  instructions : Option PrescriptionInstructions := none
  notes : Option Str := none
  summary : Option ConsultationSummary := none
  createdAt : Str := []
  updatedAt : Str := []
  version : Nat := 1
deriving DecidableEq, Repr

/-! ## The extractor utilities -/

/-- `extractAfter(text, re)`:
take the first line of the text after the match, trimmed; `null` when the
pattern does not match or the remainder is empty. -/
def extractAfter (ci : Bool) (text : Str) (re : Re) : Option Str :=
  match jsMatch ci re text with
  | none => none
  | some m =>
    let remainder := jsTrim ((jsSplit false nlRe (text.drop m.stop)).headD [])
    orUndef remainder

/-- `extractBlock(text, re)`: slice from just after the heading match to the
first position where `/\n\s*[A-Z][A-Za-z\s]*\s*[:\-]/` matches (the next
section header), or to the end of the text; trimmed.  `none` only when the
heading pattern itself does not match. -/
def extractBlock (ci : Bool) (text : Str) (re : Re) : Option Str :=
  match jsMatch ci re text with
  | none => none
  | some m =>
    let rest := text.drop m.stop
    let block :=
      match jsSearch false boundaryRe rest with
      | some endIdx => rest.take endIdx
      | none => rest
    some (jsTrim block)

/-- `extractListAfter(text, re)`: split the block on `/\n|;|\.|,/`, trim,
drop empties.  A missing or empty (falsy) block gives `[]`. -/
def extractListAfter (ci : Bool) (text : Str) (re : Re) : List Str :=
  match extractBlock ci text re with
  | none => []
  | some block =>
    if block.isEmpty then []
    else ((jsSplit false listSepRe block).map jsTrim).filter (fun s => !s.isEmpty)

/-! ## The field extractors -/

/-- `extractName`: first pattern that matches wins; its group 1 is
returned. -/
def extractName (text : Str) : Option Str :=
  match namePatterns.findSome? (fun re => (jsMatch false re text).map (fun m => m.grpGet text 1)) with
  | some r => r
  | none => none

/-- `parseInt(s, 10)` on a digit string (the only use site), as `Option`
standing for the `isNaN` guard. -/
def parseIntJS (s : Str) : Option Nat :=
  if (s.takeWhile isDigitJS).isEmpty then none
  else some ((s.takeWhile isDigitJS).foldl (fun n c => n * 10 + (c.toNat - 48)) 0)

/-- `extractAge` -/
def extractAge (text : Str) : Option Nat :=
  match jsMatch true ageRe text with
  | none => none
  | some m => (m.grpGet text 1).bind parseIntJS

/-- `extractGender` -/
def extractGender (text : Str) : Option Str :=
  if jsTest true maleRe text then some (str "male")
  else if jsTest true femaleRe text then some (str "female")
  else none

/-- `extractContact` (always returns the object; only its fields may be
undefined). -/
def extractContact (text : Str) : ContactDetails :=
  { phone := (jsMatch true phoneRe text).bind (fun m => m.grpGet text 1)
  , email := (jsMatch false emailRe text).map (fun m => m.m0 text)
  , address := ((jsMatch true addressRe text).bind (fun m => m.grpGet text 1)).map
      (fun a => (jsSplit false nlRe a).headD []) }

/-- `extractHistory` -/
def extractHistory (text : Str) : Option MedicalHistory :=
  let pastConditions := extractListAfter true text historyHeadRe
  let allergies := extractListAfter true text allergiesHeadRe
  let medsCurrent := extractListAfter true text currentMedsHeadRe
  if !pastConditions.isEmpty || !allergies.isEmpty || !medsCurrent.isEmpty then
    some { pastConditions := pastConditions
         , allergies := allergies
         , medicationsCurrently := if !medsCurrent.isEmpty then some medsCurrent else none }
  else none

/-- `extractCurrentConditions` -/
def extractCurrentConditions (text : Str) : Option (List Str) :=
  let conds := extractListAfter true text conditionsHeadRe
  if !conds.isEmpty then some conds else none

/-- `extractVitals`; the temperature unit is inferred from a whole-text
`includes(" C")` check, as in the source. -/
def extractVitals (text : Str) : Option VitalSigns :=
  let bp := jsMatch false bpRe text
  let hr := jsMatch true hrRe text
  let rr := jsMatch true rrRe text
  let temp := jsMatch false tempRe text
  let spo2 := jsMatch false spo2Re text
  if bp.isSome || hr.isSome || rr.isSome || temp.isSome || spo2.isSome then
    some
    { bloodPressure := (bp.bind (fun m => m.grpGet text 1)).map (fun v => v ++ str " mmHg")
    , heartRate := (hr.bind (fun m => m.grpGet text 1)).map (fun v => v ++ str " bpm")
    , respiratoryRate := (rr.bind (fun m => m.grpGet text 1)).map (fun v => v ++ str " breaths/min")
    , temperature := (temp.bind (fun m => m.grpGet text 1)).map
        (fun v => v ++ str " " ++ (if includesJS text (str " C") then str "C" else str "F"))
    , spo2 := (spo2.bind (fun m => m.grpGet text 1)).map (fun v => v ++ str "%") }
  else none

/-- `extractExamination` -/
def extractExamination (text : Str) : Option (List ExaminationFinding) :=
  match extractBlock true text examHeadRe with
  | none => none
  | some examBlock =>
    if examBlock.isEmpty then none
    else
      let lines := ((jsSplit false examSepRe examBlock).map jsTrim).filter (fun l => !l.isEmpty)
      some (lines.map fun line =>
        let parts := jsSplit false colonWsRe line
        if parts.length > 1 then
          { system := some (parts.headD []), description := (parts.drop 1).headD [] }
        else { system := none, description := parts.headD [] })

/-- `extractDiagnosis` -/
def extractDiagnosis (text : Str) : Option Diagnosis :=
  let primary := extractAfter true text diagnosisHeadRe
  let diffs := extractListAfter true text diffsHeadRe
  if jsTruthy primary || !diffs.isEmpty then
    some { primary := primary, differentials := if !diffs.isEmpty then some diffs else none }
  else none

/-! ## The medication extractor -/

/-- The raw name/dose/rest/duration derivation for one regex match — the
branch dispatch on the content of `m[0]` at the top of the
`extractMedications` loop body. -/
structure RawMed where
  name : Option Str
  dose : Option Str
  rest : Str
  duration : Option Str
deriving Repr

/-- Template interpolation of a possibly-undefined string
(JavaScript renders `undefined` as the text `undefined`). -/
def interpOpt (o : Option Str) : Str := o.getD (str "undefined")

def medComponents (text : Str) (m : MatchRes) : RawMed :=
  let m0 := m.m0 text
  if jsTest true tabletTestRe m0 then
    -- tablet/capsule format
    let quantity := (m.grpGet text 3).map jsTrim
    let formWord := ((jsMatch true tabletTestRe m0).map (fun mm => mm.m0 m0)).getD (str "unit(s)")
    { name := (m.grpGet text 1).map jsTrim
    , dose := (m.grpGet text 2).map jsTrim
    , rest := interpOpt quantity ++ str " " ++ formWord ++ str " "
              ++ ((m.grpGet text 4).map jsTrim).getD []
    , duration := (m.grpGet text 5).map jsTrim }
  else if jsTest true formTestRe m0 then
    -- special formulations
    { name := (m.grpGet text 1).map jsTrim
    , dose := (jsMatch true formTestRe m0).map (fun mm => mm.m0 m0)
    , rest := ((m.grpGet text 2).map jsTrim).getD []
    , duration := (jsMatch true durInM0Re m0).bind (fun mm => mm.grpGet m0 1) }
  else if jsTest true prnTestRe m0 then
    -- PRN medications
    { name := (m.grpGet text 1).map jsTrim
    , dose := none
    , rest := str "as needed for " ++ ((m.grpGet text 2).map jsTrim).getD []
    , duration := none }
  else
    -- standard format
    { name := (m.grpGet text 1).map jsTrim
    , dose := (m.grpGet text 2).map jsTrim
    , rest := ((m.grpGet text 3).map jsTrim).getD []
    , duration := (m.grpGet text 4).map jsTrim }

/-- The rest of the loop body: frequency/route extraction from `rest`,
instruction clean-up, route and frequency standardisation, and the final
`if (name)` guard deciding whether a `Medication` is pushed. -/
def medFromMatch (text : Str) (m : MatchRes) : Option Medication :=
  let rm := medComponents text m
  let freqM := jsMatch true freqRe rm.rest
  let routeM := jsMatch true routeRe rm.rest
  let instructions1 :=
    match freqM with
    | some fm => replaceFirst rm.rest (fm.m0 rm.rest)
    | none => rm.rest
  let instructions2 :=
    match routeM with
    | some rmm => replaceFirst instructions1 (rmm.m0 rm.rest)
    | none => instructions1
  let instructions3 := trimCommaWs (jsTrim (collapseWs instructions2))
  let route :=
    match routeM.map (fun rmm => rmm.m0 rm.rest) with
    | none => none
    | some r =>
      if jsTest true routeOralRe r then some (str "PO")
      else if jsTest true (lit "intramuscular") r then some (str "IM")
      else if jsTest true (lit "intravenous") r then some (str "IV")
      else if jsTest true (lit "subcutaneous") r then some (str "SC")
      else if jsTest true (lit "topical") r then some (str "Topical")
      else if jsTest true (lit "inhaled") r then some (str "Inhaled")
      else if jsTest true (lit "sublingual") r then some (str "SL")
      else if jsTest true (lit "nasal") r then some (str "Nasal")
      else if jsTest true (lit "ophthalmic") r then some (str "Ophthalmic")
      else if jsTest true (lit "otic") r then some (str "Otic")
      else some r
  let frequency :=
    match freqM.map (fun fm => fm.m0 rm.rest) with
    | none => none
    | some f =>
      if jsTest true freqOnceRe f then some (str "Once daily")
      else if jsTest true freqTwiceRe f then some (str "Twice daily")
      else if jsTest true freqThreeRe f then some (str "Three times daily")
      else if jsTest true freqFourRe f then some (str "Four times daily")
      else if jsTest true freqPrnRe f then some (str "As needed (PRN)")
      else some f
  match rm.name with
  | none => none
  | some n =>
    if n.isEmpty then none
    else some { name := n, dose := rm.dose, frequency := frequency, route := route
              , duration := rm.duration, instructions := orUndef instructions3
              , warnings := none }

/-- Phase 1 of `extractMedications`: run the battery in source order and
collect the pushed medications. -/
def medsRaw (text : Str) : List Medication :=
  ((medRegexList.map fun p => jsExecAll p.1 p.2 text).flatten).filterMap (medFromMatch text)

/-- The lines of the text on which the warning-keyword regex fires. -/
def warnLines (text : Str) : List Str :=
  (jsSplit false nlRe text).filter (jsTest true warnRe)

/-- Phase 2: `meds.forEach(med => med.warnings = med.warnings ?
med.warnings.concat(warnings) : warnings)` — append the trimmed warning
lines to every medication's warning list (creating it when absent),
whenever at least one line matched. -/
def fanWarnings (text : Str) (meds : List Medication) : List Medication :=
  if (warnLines text).isEmpty then meds
  else meds.map fun med =>
    { med with warnings := some ((med.warnings.getD []) ++ (warnLines text).map jsTrim) }

/-- Phase 3: when a global "take all medications …" instruction matches and
at least one medication exists, backfill it into every medication with
falsy `instructions`. -/
def backfillInstr (text : Str) (meds : List Medication) : List Medication :=
  match jsMatch true specialAllRe text with
  | some sm =>
    if meds.length > 0 then
      meds.map fun med =>
        if jsTruthy med.instructions then med
        else { med with instructions := some (jsTrim ((sm.grpGet text 1).getD [])) }
    else meds
  | none => meds

/-- `extractMedications`: collect the pushed medications, fan the warning
lines out to every medication, then backfill the global instruction. -/
def extractMedications (text : Str) : List Medication :=
  backfillInstr text (fanWarnings text (medsRaw text))

/-! ## The remaining extractors and `parse` -/

def extractInstructions (text : Str) : Option PrescriptionInstructions :=
  let general := extractListAfter true text instrHeadRe
  let precautions := extractListAfter true text precautionsHeadRe
  if !general.isEmpty || !precautions.isEmpty then
    some { general := general, precautions := precautions }
  else none

/-- `extractNotes`: `extractBlock(...) || undefined`. -/
def extractNotes (text : Str) : Option Str :=
  match extractBlock true text notesHeadRe with
  | none => none
  | some b => orUndef b

def extractOverview (text : Str) : Option Str := extractAfter true text overviewHeadRe

def extractKeyFindings (text : Str) : List Str := extractListAfter true text keyFindingsHeadRe

def extractDecisions (text : Str) : List Str := extractListAfter true text decisionsHeadRe

def extractFollowUp (text : Str) : Option Str := extractAfter true text followUpHeadRe

def extractSpecialInstructions (text : Str) : Option Str :=
  extractAfter true text specialInstrHeadRe

/-- The text normaliser at the top of `parse`:
`utterances.map(u => (u.text ?? "").trim()).filter(Boolean).join(" \n")`. -/
def normalizeText (utterances : List TranscriptUtterance) : Str :=
  List.intercalate (str " \n")
    ((utterances.map (fun u => jsTrim (u.text.getD []))).filter (fun s => !s.isEmpty))

/-- `PrescriptionParser.parse`.  `now` is the hoisted
`new Date().toISOString()` value; it is written to both timestamps. -/
def parse (utterances : List TranscriptUtterance) (providerName : Option Str)
    (now : Str) : PrescriptionDocument :=
  let text := normalizeText utterances
  let notesVal := extractNotes text
  { patient :=
      { name := extractName text
      , age := extractAge text
      , gender := extractGender text
      , contact := some (extractContact text) }
  , history := extractHistory text
  , currentConditions := extractCurrentConditions text
  , vitals := extractVitals text
  , examination := extractExamination text
  , diagnosis := extractDiagnosis text
  , medications := extractMedications text
  , instructions := extractInstructions text
  , notes :=
      match providerName with
      | some p =>
        if !p.isEmpty then
          some ((match notesVal with
                 | some nv => if !nv.isEmpty then nv ++ str " " else []
                 | none => []) ++ str "Prescriber: " ++ p)
        else notesVal
      | none => notesVal
  , summary := some
      { overview := extractOverview text
      , keyFindings := extractKeyFindings text
      , decisions := extractDecisions text
      , followUp := extractFollowUp text
      , specialInstructions := extractSpecialInstructions text }
  , createdAt := now
  , updatedAt := now
  , version := 1 }

/-! ## Specification-side definitions used by the block-extraction claim

`extractBlockSpec` renders the specification's own description of block
extraction ("the first subsequent line matching `/^[A-Z][A-Za-z\s]*[:\-]/`")
for comparison with the code's `extractBlock`.  `extractBlockAmended` is the
corrected description: the code searches `/\n\s*[A-Z][A-Za-z\s]*\s*[:\-]/`
anywhere in the remainder, so leading whitespace is allowed before the
capital and the letters/whitespace run may span line breaks; the cut is at
the newline that starts the matched boundary. -/

def isUpperCh (c : Char) : Bool := 'A' ≤ c && c ≤ 'Z'

/-- Membership in the class `[A-Za-z\s]`. -/
def isLsCh (c : Char) : Bool :=
  ('A' ≤ c && c ≤ 'Z') || ('a' ≤ c && c ≤ 'z') || isSpaceJS c

/-- Scan `[A-Za-z\s]*\s*[:\-]` deterministically: walk through
letters/whitespace and succeed exactly when a `:` or `-` is reached. -/
def colonScan : Str → Bool
  | [] => false
  | c :: tl => if c = ':' || c = '-' then true else if isLsCh c then colonScan tl else false

/-- `\s*[A-Z][A-Za-z\s]*\s*[:\-]` as a prefix test. -/
def headerTail (s : Str) : Bool :=
  match s.dropWhile isSpaceJS with
  | [] => false
  | c :: tl => isUpperCh c && colonScan tl

/-- `\n\s*[A-Z][A-Za-z\s]*\s*[:\-]` as a prefix test: the section-boundary
pattern of `extractBlock` matches here. -/
def boundaryAt : Str → Bool
  | [] => false
  | c :: tl => c = '\n' && headerTail tl

/-- Index of the first position of `rest` where the boundary pattern
matches. -/
def firstBoundaryAux : Str → Nat → Option Nat
  | rest, p =>
    if boundaryAt rest then some p
    else
      match rest with
      | [] => none
      | _ :: tl => firstBoundaryAux tl (p+1)

def firstBoundary (rest : Str) : Option Nat := firstBoundaryAux rest 0

/-- The claim's per-line header test `/^[A-Z][A-Za-z\s]*[:\-]/` (anchored at
the start of the line). -/
def lineIsHeader (l : Str) : Bool :=
  match l with
  | [] => false
  | c :: tl => isUpperCh c && colonScan tl

/-- Index of the first *subsequent* line (index ≥ 1) matching the claim's
header pattern. -/
def firstHeaderLine (lines : List Str) : Option Nat :=
  match lines with
  | [] => none
  | _ :: rest => (rest.findIdx? lineIsHeader).map (· + 1)

/-- Block extraction exactly as the specification sentence words it: the
text from just after the heading match up to the start of the first
subsequent line matching `/^[A-Z][A-Za-z\s]*[:\-]/`, or the remainder of
the text if no such line exists; trimmed. -/
def extractBlockSpec (ci : Bool) (text : Str) (re : Re) : Option Str :=
  match jsMatch ci re text with
  | none => none
  | some m =>
    let rest := text.drop m.stop
    let lines := jsSplit false nlRe rest
    match firstHeaderLine lines with
    | some idx => some (jsTrim (List.intercalate (str "\n") (lines.take idx)))
    | none => some (jsTrim rest)

/-- Block extraction as the code actually behaves (the amended claim): cut
at the first position where `\n\s*[A-Z][A-Za-z\s]*\s*[:\-]` matches, else
take the whole remainder; trimmed. -/
def extractBlockAmended (ci : Bool) (text : Str) (re : Re) : Option Str :=
  match jsMatch ci re text with
  | none => none
  | some m =>
    let rest := text.drop m.stop
    match firstBoundary rest with
    | some p => some (jsTrim (rest.take p))
    | none => some (jsTrim rest)

/-! ## Concrete inputs used by the scenario claims -/

/-- The single-utterance scenario text of the specification's test
scenario. -/
def c2Text : Str :=
  str "Patient John Smith, 45 year old male. Diagnosis: Hypertension. Prescribe Lisinopril 10 mg once daily. Follow up in 2 weeks."

/-- A fixed timestamp standing in for `new Date().toISOString()`. -/
def t0 : Str := str "2026-01-01T00:00:00.000Z"

/-- The scenario claim, field for field: name/age/gender as given, primary
diagnosis `"Hypertension."` (or a trimmed equivalent), a medication
`Lisinopril / 10 mg / Once daily`, and a non-empty `summary.followUp`. -/
def c2Claimed (d : PrescriptionDocument) : Prop :=
  d.patient.name = some (str "John Smith") ∧
  d.patient.age = some 45 ∧
  d.patient.gender = some (str "male") ∧
  (∃ p, d.diagnosis.bind Diagnosis.primary = some p ∧
        (p = str "Hypertension." ∨ jsTrim p = str "Hypertension.")) ∧
  (∃ m, m ∈ d.medications ∧ m.name = str "Lisinopril" ∧
        m.dose = some (str "10 mg") ∧ m.frequency = some (str "Once daily")) ∧
  (∃ f, d.summary.bind ConsultationSummary.followUp = some f ∧ f ≠ [])

/-- The empty-input claim: `medications = []`, `version = 1`, and every
optional top-level field — including every optional field of `patient` and
of `summary` — absent. -/
def c7Claimed (d : PrescriptionDocument) : Prop :=
  d.medications = [] ∧
  d.history = none ∧
  d.currentConditions = none ∧
  d.vitals = none ∧
  d.examination = none ∧
  d.diagnosis = none ∧
  d.instructions = none ∧
  d.notes = none ∧
  d.patient.name = none ∧
  d.patient.age = none ∧
  d.patient.gender = none ∧
  d.patient.contact = none ∧
  (∀ s, d.summary = some s →
    s.overview = none ∧ s.followUp = none ∧ s.specialInstructions = none) ∧
  d.version = 1

/-- The five normalised frequency strings of the specification. -/
def freqVocab : List Str :=
  [str "Once daily", str "Twice daily", str "Three times daily",
   str "Four times daily", str "As needed (PRN)"]


/-! ## Auxiliary definitions for the proofs and witnesses -/

/-- `anyDrop p Q rest`: some (possibly empty) prefix of `rest`'s maximal
`p`-run can be dropped so that `Q` holds on what remains — the success
condition of a greedy character-class star followed by a continuation whose
success is described by `Q`. -/
def anyDrop (p : Char → Bool) (Q : Str → Bool) : Str → Bool
  | [] => Q []
  | c :: tl => if p c then (anyDrop p Q tl || Q (c :: tl)) else Q (c :: tl)

/-! One-step unfolding equations for `mat`, used to drive the matcher by
hand in the boundary-search characterisation below. -/

theorem mat_succ_seq (ci : Bool) (f : Nat) (a b : Re) (i : Nat) (rest : Str)
    (prv : Option Char) (caps : Caps) (k : Nat → Str → Option Char → Caps → Option (Nat × Caps)) :
    mat ci (f+1) (.seq a b) i rest prv caps k
      = mat ci f a i rest prv caps (fun i' r' p' c' => mat ci f b i' r' p' c' k) := rfl

theorem mat_succ_star_greedy (ci : Bool) (f : Nat) (r : Re) (i : Nat) (rest : Str)
    (prv : Option Char) (caps : Caps) (k : Nat → Str → Option Char → Caps → Option (Nat × Caps)) :
    mat ci (f+1) (.star false r) i rest prv caps k
      = Option.orElse
          (mat ci f r i rest prv caps fun i' r' p' c' =>
            if i < i' then mat ci f (.star false r) i' r' p' c' k else none)
          (fun _ => k i rest prv caps) := rfl

theorem mat_succ_cls_nil (ci : Bool) (f : Nat) (items : List CItem) (i : Nat)
    (prv : Option Char) (caps : Caps) (k : Nat → Str → Option Char → Caps → Option (Nat × Caps)) :
    mat ci (f+1) (.cls items) i [] prv caps k = none := rfl

theorem mat_succ_cls_cons (ci : Bool) (f : Nat) (items : List CItem) (i : Nat)
    (d : Char) (tl : Str) (prv : Option Char) (caps : Caps)
    (k : Nat → Str → Option Char → Caps → Option (Nat × Caps)) :
    mat ci (f+1) (.cls items) i (d :: tl) prv caps k
      = (if clsHit ci items d then k (i+1) tl (some d) caps else none) := rfl

theorem mat_succ_ch_nil (ci : Bool) (f : Nat) (c : Char) (i : Nat)
    (prv : Option Char) (caps : Caps) (k : Nat → Str → Option Char → Caps → Option (Nat × Caps)) :
    mat ci (f+1) (.ch c) i [] prv caps k = none := rfl

theorem mat_succ_ch_cons (ci : Bool) (f : Nat) (c : Char) (i : Nat)
    (d : Char) (tl : Str) (prv : Option Char) (caps : Caps)
    (k : Nat → Str → Option Char → Caps → Option (Nat × Caps)) :
    mat ci (f+1) (.ch c) i (d :: tl) prv caps k
      = (if chHit ci c d then k (i+1) tl (some d) caps else none) := rfl

/-- The head of the remainder is the `:`/`-` the boundary pattern ends
with. -/
def colonHead : Str → Bool
  | [] => false
  | c :: _ => c = ':' || c = '-'

/-- `\s*[:\-]` after the letters run: skip the whitespace, expect a colon
or dash. -/
def wsColonP (r : Str) : Bool := colonHead (r.dropWhile isSpaceJS)

def c9Med : Medication :=
  { name := str "Amoxil", dose := some (str "1 mg"), frequency := some (str "Once daily") }

def c4Utts : List TranscriptUtterance :=
  [{ text := some (str "Prescribe Amoxil 1 mg daily.") }, { text := some (str "Avoid alcohol.") }]

def c4Med : Medication :=
  { name := str "Amoxil", dose := some (str "1 mg"), frequency := some (str "Once daily"),
    warnings := some [str "Avoid alcohol."] }

/-! ## Claim theorems -/

/-- C3: `PrescriptionParser.parse` is total: for every utterance list
(including the empty list, utterances whose joined text is empty, non-ASCII
text, and text with no clinical content) it returns a well-formed
`PrescriptionDocument` — both timestamps set to the supplied clock value,
`version = 1`, the patient/contact and summary containers present — and,
being a total Lean function built from total string operations, it cannot
throw. -/
theorem C3_parse_total_wellformed (us : List TranscriptUtterance)
    (pn : Option Str) (now : Str) :
    ∃ d : PrescriptionDocument, parse us pn now = d ∧ d.version = 1 ∧
      d.createdAt = now ∧ d.updatedAt = now ∧
      d.patient.contact.isSome = true ∧ d.summary.isSome = true :=
  ⟨parse us pn now, rfl, rfl, rfl, rfl, rfl, rfl⟩

/-- C6: parsing is deterministic modulo timestamps: a second call on the
same utterances and provider name with a different clock value yields the
very same document except for `createdAt`/`updatedAt`.  (The embedding is a
pure function, so the absence of input mutation and shared state is by
construction.) -/
theorem C6_parse_deterministic_mod_timestamps (us : List TranscriptUtterance)
    (pn : Option Str) (t t' : Str) :
    parse us pn t' = { parse us pn t with createdAt := t', updatedAt := t' } := rfl

/-- C10: every parse result carries the patient's contact sub-object and
the summary object (absence lives only in their inner fields), and has
`createdAt = updatedAt` and `version = 1`. -/
theorem C10_containers_always_present (us : List TranscriptUtterance)
    (pn : Option Str) (now : Str) :
    (parse us pn now).patient.contact = some (extractContact (normalizeText us)) ∧
    (parse us pn now).summary.isSome = true ∧
    (parse us pn now).createdAt = (parse us pn now).updatedAt ∧
    (parse us pn now).version = 1 :=
  ⟨rfl, rfl, rfl, rfl⟩

set_option maxRecDepth 10000 in
/-- C1: the frequency-normalisation closure fails.  On
`"Prescribe Lisinopril 10 mg once daily."` the frequency capture regex
matches just `"once"` (its alternation lists `once` before any
`once daily` form), none of the standardisation branches fire on the bare
word, and the raw text `"once"` — outside the five normalised strings — is
emitted as the medication's frequency. -/
theorem C1_freq_normalization_fails_on_once :
    (extractMedications (str "Prescribe Lisinopril 10 mg once daily.")).map
        Medication.frequency = [some (str "once")] ∧
    some (str "once") ∉ freqVocab.map Option.some := by decide

set_option maxRecDepth 10000 in
/-- C5: the "standard" pattern (code comment:
`"Amoxicillin 500 mg twice daily for 7 days"`) does match the plain
`Drug dose …` phrasing, but the loop body reads the medication name from
capture group 1 — which in this regex is the optional `(Take\s+)` group —
so the match is discarded and no medication at all is extracted from the
pattern's own documented example. -/
theorem C5_plain_pattern_extracts_nothing :
    (jsMatch false medRe1 (str "Amoxicillin 500 mg twice daily for 7 days.")).isSome = true ∧
    extractMedications (str "Amoxicillin 500 mg twice daily for 7 days.") = [] := by decide

set_option maxRecDepth 100000 in
/-- C2 (counterexample): the scenario claim fails on the code.  On the
given input the parser leaves `summary.followUp` undefined — the follow-up
heading regex `/(follow\s*up|follow-up\s*recommendations)\s*[:\-]/i`
requires a colon or dash, which `"Follow up in 2 weeks."` does not
contain. -/
theorem C2_scenario_counterexample :
    ¬ c2Claimed (parse [{ text := some c2Text }] none t0) := by
  rintro ⟨-, -, -, -, -, f, hf, -⟩
  have h : (parse [{ text := some c2Text }] none t0).summary.bind
      ConsultationSummary.followUp = none := by decide
  rw [h] at hf
  exact Option.noConfusion hf

set_option maxRecDepth 100000 in
/-- C2 (amended): on the scenario input the parser actually returns
`patient.name = "John Smith"`, `patient.age = 45`,
`patient.gender = "male"`, a primary diagnosis consisting of the whole rest
of the line after `Diagnosis:` (`extractAfter` keeps everything up to the
next newline), exactly one medication with `name = "Lisinopril"`,
`dose = "10 mg"` but raw frequency `"once"` (the normalisation slip of C1),
and an undefined `summary.followUp` (no colon after "Follow up"). -/
theorem C2_scenario_actual :
    (parse [{ text := some c2Text }] none t0).patient.name = some (str "John Smith") ∧
    (parse [{ text := some c2Text }] none t0).patient.age = some 45 ∧
    (parse [{ text := some c2Text }] none t0).patient.gender = some (str "male") ∧
    (parse [{ text := some c2Text }] none t0).diagnosis =
      some { primary := some (str "Hypertension. Prescribe Lisinopril 10 mg once daily. Follow up in 2 weeks.")
           , differentials := none } ∧
    (parse [{ text := some c2Text }] none t0).medications =
      [{ name := str "Lisinopril", dose := some (str "10 mg")
       , frequency := some (str "once"), route := none, duration := none
       , instructions := some (str "daily"), warnings := none }] ∧
    (parse [{ text := some c2Text }] none t0).summary.bind
      ConsultationSummary.followUp = none := by
  decide

/-- C7 (counterexample): on the empty input the claim "every optional field
of patient is absent" fails — `patient.contact` is always populated with a
(fieldwise empty) contact object, never left undefined. -/
theorem C7_empty_input_counterexample : ¬ c7Claimed (parse [] none t0) := by
  rintro ⟨-, -, -, -, -, -, -, -, -, -, -, hc, -, -⟩
  revert hc
  decide

/-- C7 (amended): any input normalising to the empty text (with no provider
name) yields exactly: no medications, all top-level optionals and all
patient/summary leaf fields absent, but with the contact sub-object and the
summary object present (fieldwise empty), both timestamps the clock value,
and `version = 1`. -/
theorem C7_empty_input_actual (us : List TranscriptUtterance) (now : Str)
    (h : normalizeText us = []) :
    parse us none now =
      { patient := { contact := some {} }, summary := some {},
        createdAt := now, updatedAt := now } := by
  unfold parse
  rw [h]
  rfl

/-- Witness for C7 (amended) at the empty utterance list. -/
theorem C7_empty_input_actual_witness :
    normalizeText [] = [] ∧
    parse [] none t0 =
      { patient := { contact := some {} }, summary := some {},
        createdAt := t0, updatedAt := t0 } :=
  ⟨rfl, C7_empty_input_actual [] t0 rfl⟩

/-! ## The medication-phase lemmas, the boundary-search characterisation, and the remaining claim theorems -/

theorem medFromMatch_eq_some (text : Str) (m : MatchRes) (med : Medication)
    (h : medFromMatch text m = some med) :
    med.name ≠ [] ∧ med.warnings = none := by
  simp only [medFromMatch] at h
  cases hn : (medComponents text m).name with
  | none => rw [hn] at h; cases h
  | some n =>
    rw [hn] at h
    dsimp only [] at h
    by_cases he : n.isEmpty
    · rw [if_pos he] at h; cases h
    · rw [if_neg he] at h
      cases h
      refine ⟨?_, rfl⟩
      simpa using he

theorem mem_medsRaw (text : Str) (med : Medication) (h : med ∈ medsRaw text) :
    med.name ≠ [] ∧ med.warnings = none := by
  unfold medsRaw at h
  rcases List.mem_filterMap.1 h with ⟨a, -, ha⟩
  exact medFromMatch_eq_some text a med ha

theorem mem_fanWarnings (text : Str) (L : List Medication) (med : Medication)
    (h : med ∈ fanWarnings text L) :
    ∃ m0 ∈ L, med.name = m0.name := by
  unfold fanWarnings at h
  split at h
  · exact ⟨med, h, rfl⟩
  · rcases List.mem_map.1 h with ⟨m0, hm0, rfl⟩
    exact ⟨m0, hm0, rfl⟩

theorem mem_backfillInstr (text : Str) (L : List Medication) (med : Medication)
    (h : med ∈ backfillInstr text L) :
    ∃ m0 ∈ L, med.name = m0.name ∧ med.warnings = m0.warnings := by
  unfold backfillInstr at h
  split at h
  case h_1 sm hsm =>
    split at h
    · rcases List.mem_map.1 h with ⟨m0, hm0, rfl⟩
      refine ⟨m0, hm0, ?_⟩
      split <;> exact ⟨rfl, rfl⟩
    · exact ⟨med, h, rfl, rfl⟩
  case h_2 => exact ⟨med, h, rfl, rfl⟩

/-- C9: every medication in the extractor's output has a non-empty name:
the push site is guarded by `if (name)`, and the later warning fan-out and
instruction backfill leave the name untouched. -/
theorem C9_medication_name_nonempty (text : Str) (med : Medication)
    (h : med ∈ extractMedications text) : med.name ≠ [] := by
  unfold extractMedications at h
  rcases mem_backfillInstr _ _ _ h with ⟨m1, hm1, hname1, -⟩
  rcases mem_fanWarnings _ _ _ hm1 with ⟨m0, hm0, hname0⟩
  rw [hname1, hname0]
  exact (mem_medsRaw text m0 hm0).1

theorem fanWarnings_has_line (text line : Str) (L : List Medication) (med : Medication)
    (hline : line ∈ jsSplit false nlRe text) (hwarn : jsTest true warnRe line = true)
    (h : med ∈ fanWarnings text L) :
    jsTrim line ∈ med.warnings.getD [] := by
  have hlw : line ∈ warnLines text := List.mem_filter.2 ⟨hline, hwarn⟩
  unfold fanWarnings at h
  rw [if_neg (by simp only [List.isEmpty_eq_true]; exact List.ne_nil_of_mem hlw)] at h
  rcases List.mem_map.1 h with ⟨m0, hm0, rfl⟩
  simp only [Option.getD_some]
  exact List.mem_append_right _ (List.mem_map_of_mem jsTrim hlw)

/-- C4: a line of the normalised text on which the warning pattern fires
appears, trimmed, in the warnings list of every extracted medication. -/
theorem C4_warning_fanout (us : List TranscriptUtterance) (pn : Option Str)
    (now : Str) (line : Str) (med : Medication)
    (hline : line ∈ jsSplit false nlRe (normalizeText us))
    (hwarn : jsTest true warnRe line = true)
    (hmed : med ∈ (parse us pn now).medications) :
    jsTrim line ∈ med.warnings.getD [] := by
  have hmed' : med ∈ extractMedications (normalizeText us) := hmed
  unfold extractMedications at hmed'
  rcases mem_backfillInstr _ _ _ hmed' with ⟨m1, hm1, -, hw⟩
  rw [hw]
  exact fanWarnings_has_line _ _ _ _ hline hwarn hm1

theorem isSome_orElse {α : Type} (a : Option α) (b : Unit → Option α) :
    (Option.orElse a b).isSome = (a.isSome || (b ()).isSome) := by
  cases a <;> rfl

theorem mat_star_cls_isSome (items : List CItem) (Q : Str → Bool)
    (k : Nat → Str → Option Char → Caps → Option (Nat × Caps)) (L : Nat)
    (hk : ∀ i' r' p' c', List.length r' ≤ L → (k i' r' p' c').isSome = Q r') :
    ∀ (rest : Str) (i : Nat) (prv : Option Char) (caps : Caps) (f : Nat),
      rest.length + 2 ≤ f → rest.length ≤ L →
      (mat false f (.star false (.cls items)) i rest prv caps k).isSome
        = anyDrop (clsHit false items) Q rest := by
  intro rest
  induction rest with
  | nil =>
    intro i prv caps f hf hL
    obtain ⟨f1, rfl⟩ : ∃ f1, f = f1 + 1 := ⟨f - 1, by omega⟩
    obtain ⟨f2, rfl⟩ : ∃ f2, f1 = f2 + 1 := ⟨f1 - 1, by omega⟩
    rw [mat_succ_star_greedy, mat_succ_cls_nil, isSome_orElse]
    rw [hk _ _ _ _ (by simp)]
    rfl
  | cons c tl ih =>
    intro i prv caps f hf hL
    obtain ⟨f1, rfl⟩ : ∃ f1, f = f1 + 1 := ⟨f - 1, by omega⟩
    obtain ⟨f2, rfl⟩ : ∃ f2, f1 = f2 + 1 := ⟨f1 - 1, by omega⟩
    rw [mat_succ_star_greedy, mat_succ_cls_cons, isSome_orElse]
    by_cases hc : clsHit false items c
    · rw [if_pos hc, if_pos (by omega : i < i + 1)]
      rw [ih (i+1) (some c) caps (f2+1) (by simp at hf ⊢; omega)
            (by simp at hL; omega)]
      rw [hk _ _ _ _ hL]
      simp only [anyDrop, if_pos hc]
    · rw [if_neg hc]
      rw [hk _ _ _ _ hL]
      simp only [anyDrop, if_neg hc, Option.isSome_none, Bool.false_or]

theorem anyDrop_disjoint (p : Char → Bool) (Q : Str → Bool)
    (hdisj : ∀ c tl, p c = true → Q (c :: tl) = false) :
    ∀ rest : Str, anyDrop p Q rest = Q (rest.dropWhile p)
  | [] => rfl
  | c :: tl => by
    by_cases hc : p c
    · simp only [anyDrop, if_pos hc, hdisj c tl hc, Bool.or_false,
        List.dropWhile_cons_of_pos hc, anyDrop_disjoint p Q hdisj tl]
    · simp only [anyDrop, if_neg hc,
        List.dropWhile_cons_of_neg (by simpa using hc)]

theorem clsHit_space_eq : clsHit false [CItem.space] = isSpaceJS := by
  funext c
  simp [clsHit, ciHit]

theorem clsHit_colon_eq (d : Char) :
    clsHit false [CItem.one ':', CItem.one '-'] d = (d = ':' || d = '-') := by
  simp [clsHit, ciHit]

theorem clsHit_upper_eq (d : Char) :
    clsHit false [CItem.rng 'A' 'Z'] d = isUpperCh d := by
  simp [clsHit, ciHit, isUpperCh]

theorem clsHit_ls_eq :
    clsHit false [CItem.rng 'A' 'Z', CItem.rng 'a' 'z', CItem.space] = isLsCh := by
  funext c
  simp [clsHit, ciHit, isLsCh, Bool.or_assoc]

theorem mat_colonC (rest : Str) (i : Nat) (prv : Option Char) (caps : Caps)
    (f : Nat) (hf : 1 ≤ f) :
    (mat false f (.cls [CItem.one ':', CItem.one '-']) i rest prv caps kTop).isSome
      = colonHead rest := by
  obtain ⟨f1, rfl⟩ : ∃ f1, f = f1 + 1 := ⟨f - 1, by omega⟩
  cases rest with
  | nil => rw [mat_succ_cls_nil]; rfl
  | cons d tl =>
    rw [mat_succ_cls_cons]
    by_cases hd : clsHit false [CItem.one ':', CItem.one '-'] d
    · rw [if_pos hd]
      simp only [colonHead, kTop, Option.isSome_some]
      rw [clsHit_colon_eq] at hd
      exact hd.symm
    · rw [if_neg hd]
      simp only [colonHead, Option.isSome_none]
      rw [clsHit_colon_eq] at hd
      simpa using hd

theorem mat_wsColon (rest : Str) (i : Nat) (prv : Option Char) (caps : Caps)
    (f : Nat) (hf : rest.length + 4 ≤ f) :
    (mat false f (.seq (.star false (.cls [CItem.space])) (.cls [CItem.one ':', CItem.one '-']))
        i rest prv caps kTop).isSome = wsColonP rest := by
  obtain ⟨f1, rfl⟩ : ∃ f1, f = f1 + 1 := ⟨f - 1, by omega⟩
  rw [mat_succ_seq]
  rw [mat_star_cls_isSome [CItem.space] colonHead _ rest.length
        (fun i' r' p' c' hlen => mat_colonC r' i' p' c' f1 (by omega))
        rest i prv caps f1 (by omega) le_rfl]
  rw [anyDrop_disjoint _ _ (fun c tl hc => by
        simp only [colonHead]
        rw [clsHit_space_eq] at hc
        have h1 : ¬ c = ':' := by rintro rfl; exact absurd hc (by decide)
        have h2 : ¬ c = '-' := by rintro rfl; exact absurd hc (by decide)
        simp [h1, h2])]
  rw [wsColonP, clsHit_space_eq]

theorem wsColonP_imp_colonScan : ∀ r : Str, wsColonP r = true → colonScan r = true
  | [], h => h
  | c :: tl, h => by
    by_cases hcol : (c = ':' || c = '-' : Bool) = true
    · simp only [colonScan, if_pos hcol]
    · by_cases hsp : isSpaceJS c
      · rw [wsColonP, List.dropWhile_cons_of_pos hsp] at h
        simp only [colonScan, if_neg hcol,
          if_pos (show isLsCh c = true by simp [isLsCh, hsp])]
        exact wsColonP_imp_colonScan tl h
      · rw [wsColonP, List.dropWhile_cons_of_neg (by simpa using hsp)] at h
        exact absurd h (by simpa [colonHead] using hcol)

theorem anyDrop_ls_colonScan : ∀ rest : Str,
    anyDrop isLsCh wsColonP rest = colonScan rest
  | [] => rfl
  | c :: tl => by
    by_cases hls : isLsCh c
    · by_cases hcol : (c = ':' || c = '-' : Bool) = true
      · exfalso
        rcases Bool.or_eq_true _ _ |>.mp hcol with h1 | h1
        · rw [show c = ':' from by simpa using h1] at hls
          exact absurd hls (by decide)
        · rw [show c = '-' from by simpa using h1] at hls
          exact absurd hls (by decide)
      · simp only [anyDrop, if_pos hls, anyDrop_ls_colonScan tl,
          colonScan, if_neg hcol, if_pos hls]
        cases hw : wsColonP (c :: tl) with
        | true =>
          have : colonScan (c :: tl) = true := wsColonP_imp_colonScan _ hw
          rw [colonScan, if_neg hcol, if_pos hls] at this
          simp [this]
        | false => simp
    · have hsp : ¬ isSpaceJS c = true := fun h => hls (by simp [isLsCh, h])
      simp only [anyDrop, if_neg hls, wsColonP,
        List.dropWhile_cons_of_neg (by simpa using hsp), colonHead]
      by_cases hcol : (c = ':' || c = '-' : Bool) = true
      · simp [colonScan, hcol]
      · simp only [colonScan, if_neg hcol, if_neg hls]
        simpa using hcol

theorem mat_lsColon (rest : Str) (i : Nat) (prv : Option Char) (caps : Caps)
    (f : Nat) (hf : rest.length + 6 ≤ f) :
    (mat false f (.seq (.star false (.cls [CItem.rng 'A' 'Z', CItem.rng 'a' 'z', CItem.space]))
        (.seq (.star false (.cls [CItem.space])) (.cls [CItem.one ':', CItem.one '-'])))
        i rest prv caps kTop).isSome = colonScan rest := by
  obtain ⟨f1, rfl⟩ : ∃ f1, f = f1 + 1 := ⟨f - 1, by omega⟩
  rw [mat_succ_seq]
  rw [mat_star_cls_isSome [CItem.rng 'A' 'Z', CItem.rng 'a' 'z', CItem.space] wsColonP _
        rest.length
        (fun i' r' p' c' hlen => mat_wsColon r' i' p' c' f1 (by omega))
        rest i prv caps f1 (by omega) le_rfl]
  rw [clsHit_ls_eq]
  exact anyDrop_ls_colonScan rest

theorem mat_upperScan (rest : Str) (i : Nat) (prv : Option Char) (caps : Caps)
    (f : Nat) (hf : rest.length + 8 ≤ f) :
    (mat false f (.seq (.cls [CItem.rng 'A' 'Z'])
        (.seq (.star false (.cls [CItem.rng 'A' 'Z', CItem.rng 'a' 'z', CItem.space]))
          (.seq (.star false (.cls [CItem.space])) (.cls [CItem.one ':', CItem.one '-']))))
        i rest prv caps kTop).isSome = lineIsHeader rest := by
  obtain ⟨f1, rfl⟩ : ∃ f1, f = f1 + 1 := ⟨f - 1, by omega⟩
  obtain ⟨f2, rfl⟩ : ∃ f2, f1 = f2 + 1 := ⟨f1 - 1, by omega⟩
  rw [mat_succ_seq]
  cases rest with
  | nil =>
    rw [mat_succ_cls_nil]
    rfl
  | cons d tl =>
    rw [mat_succ_cls_cons]
    by_cases hd : clsHit false [CItem.rng 'A' 'Z'] d
    · rw [if_pos hd, mat_lsColon tl (i+1) (some d) caps (f2+1) (by simp at hf ⊢; omega)]
      rw [clsHit_upper_eq] at hd
      simp only [lineIsHeader, hd, Bool.true_and]
    · rw [if_neg hd]
      rw [clsHit_upper_eq] at hd
      simp only [lineIsHeader, Option.isSome_none]
      simp only [Bool.not_eq_true] at hd
      simp [hd]

theorem headerTail_eq (s : Str) :
    headerTail s = lineIsHeader (s.dropWhile isSpaceJS) := by
  cases hs : s.dropWhile isSpaceJS with
  | nil => simp [headerTail, lineIsHeader, hs]
  | cons c tl => simp [headerTail, lineIsHeader, hs]

theorem mat_headerTail (rest : Str) (i : Nat) (prv : Option Char) (caps : Caps)
    (f : Nat) (hf : rest.length + 10 ≤ f) :
    (mat false f (.seq (.star false (.cls [CItem.space]))
        (.seq (.cls [CItem.rng 'A' 'Z'])
          (.seq (.star false (.cls [CItem.rng 'A' 'Z', CItem.rng 'a' 'z', CItem.space]))
            (.seq (.star false (.cls [CItem.space])) (.cls [CItem.one ':', CItem.one '-'])))))
        i rest prv caps kTop).isSome = headerTail rest := by
  obtain ⟨f1, rfl⟩ : ∃ f1, f = f1 + 1 := ⟨f - 1, by omega⟩
  rw [mat_succ_seq]
  rw [mat_star_cls_isSome [CItem.space] lineIsHeader _ rest.length
        (fun i' r' p' c' hlen => mat_upperScan r' i' p' c' f1 (by omega))
        rest i prv caps f1 (by omega) le_rfl]
  rw [anyDrop_disjoint _ _ (fun c tl hc => by
        rw [clsHit_space_eq] at hc
        have hu : isUpperCh c = false := by
          simp only [isSpaceJS, Bool.or_eq_true, decide_eq_true_eq] at hc
          rcases hc with ((((rfl | rfl) | rfl) | rfl) | rfl) | rfl <;> decide
        simp [lineIsHeader, hu])]
  rw [clsHit_space_eq, headerTail_eq]

theorem mat_boundary (rest : Str) (i : Nat) (prv : Option Char) (caps : Caps)
    (f : Nat) (hf : rest.length + 12 ≤ f) :
    (mat false f boundaryRe i rest prv caps kTop).isSome = boundaryAt rest := by
  obtain ⟨f1, rfl⟩ : ∃ f1, f = f1 + 1 := ⟨f - 1, by omega⟩
  obtain ⟨f2, rfl⟩ : ∃ f2, f1 = f2 + 1 := ⟨f1 - 1, by omega⟩
  rw [show boundaryRe = .seq (.ch '\n')
        (.seq (.star false (.cls [CItem.space]))
          (.seq (.cls [CItem.rng 'A' 'Z'])
            (.seq (.star false (.cls [CItem.rng 'A' 'Z', CItem.rng 'a' 'z', CItem.space]))
              (.seq (.star false (.cls [CItem.space])) (.cls [CItem.one ':', CItem.one '-'])))))
      from rfl]
  rw [mat_succ_seq]
  cases rest with
  | nil => rw [mat_succ_ch_nil]; rfl
  | cons d tl =>
    rw [mat_succ_ch_cons]
    by_cases hd : chHit false '\n' d
    · rw [if_pos hd, mat_headerTail tl (i+1) (some d) caps (f2+1) (by simp at hf ⊢; omega)]
      have : d = '\n' := by
        simp only [chHit, Bool.false_and, Bool.or_false, decide_eq_true_eq] at hd
        exact hd.symm
      simp [boundaryAt, this]
    · rw [if_neg hd]
      have : ¬ d = '\n' := by
        intro h
        exact hd (by simp [chHit, h])
      simp [boundaryAt, Option.isSome_none, this]

theorem findAux_boundary (fuel : Nat) :
    ∀ (rest : Str) (i : Nat) (prv : Option Char),
      rest.length + 12 ≤ fuel →
      (findAux false boundaryRe fuel rest i prv).map MatchRes.start
        = firstBoundaryAux rest i := by
  intro rest
  induction rest with
  | nil =>
    intro i prv hf
    rw [findAux, firstBoundaryAux]
    rw [if_neg (by simp [boundaryAt])]
    cases hm : mat false fuel boundaryRe i [] prv [] kTop with
    | none => rfl
    | some v =>
      have := mat_boundary [] i prv [] fuel hf
      rw [hm] at this
      simp [boundaryAt] at this
  | cons c tl ih =>
    intro i prv hf
    rw [findAux, firstBoundaryAux]
    cases hm : mat false fuel boundaryRe i (c :: tl) prv [] kTop with
    | none =>
      have hb := mat_boundary (c :: tl) i prv [] fuel hf
      rw [hm] at hb
      rw [if_neg (by rw [← hb]; simp)]
      exact ih (i+1) (some c) (by simp at hf ⊢; omega)
    | some v =>
      have hb := mat_boundary (c :: tl) i prv [] fuel hf
      rw [hm] at hb
      rw [if_pos (by rw [← hb]; simp)]
      rfl

theorem jsSearch_boundary (rest : Str) :
    jsSearch false boundaryRe rest = firstBoundary rest := by
  have hsz : Re.size boundaryRe = 14 := by decide
  unfold jsSearch jsMatch findFromPos firstBoundary
  rw [List.drop_zero, show prevAt rest 0 = none from by simp [prevAt]]
  exact findAux_boundary _ rest 0 none
    (by rw [fuelFor, hsz]; omega)

/-- C8 (amended): block extraction cuts the remainder at the first position
where `\n\s*[A-Z][A-Za-z\s]*\s*[:\-]` matches — a subsequent line whose
first non-whitespace character is a capital letter and which reaches a
colon or dash through letters and whitespace (leading whitespace allowed,
and the run may even span further line breaks) — else keeps the whole
remainder; the result is trimmed. -/
theorem C8_block_boundary_actual (ci : Bool) (text : Str) (re : Re) :
    extractBlock ci text re = extractBlockAmended ci text re := by
  unfold extractBlock extractBlockAmended
  cases jsMatch ci re text with
  | none => rfl
  | some m =>
    dsimp only
    rw [jsSearch_boundary]
    cases firstBoundary (List.drop m.stop text) <;> rfl

/-- C8 (counterexample): on `"notes: hello\n Plan: ok"` the code cuts the
block at `"\n Plan:"` (its boundary regex allows whitespace after the
newline), returning `"hello"`, while the claim's `/^[A-Z][A-Za-z\s]*[:\-]/`
line test does not fire on the indented line `" Plan: ok"`, so the claimed
result keeps the whole remainder. -/
theorem C8_block_boundary_counterexample :
    extractBlock true (str "notes: hello\n Plan: ok") notesHeadRe
        = some (str "hello") ∧
    extractBlockSpec true (str "notes: hello\n Plan: ok") notesHeadRe
        = some (str "hello\n Plan: ok") := by decide

set_option maxRecDepth 100000 in
theorem C9_medication_name_nonempty_witness :
    c9Med ∈ extractMedications (str "Prescribe Amoxil 1 mg daily.") ∧ c9Med.name ≠ [] :=
  ⟨by decide, C9_medication_name_nonempty (str "Prescribe Amoxil 1 mg daily.") c9Med (by decide)⟩

set_option maxRecDepth 100000 in
theorem C4_warning_fanout_witness :
    (str "Avoid alcohol.") ∈ jsSplit false nlRe (normalizeText c4Utts) ∧
    jsTest true warnRe (str "Avoid alcohol.") = true ∧
    c4Med ∈ (parse c4Utts none t0).medications ∧
    jsTrim (str "Avoid alcohol.") ∈ c4Med.warnings.getD [] :=
  ⟨by decide, by decide, by decide,
    C4_warning_fanout c4Utts none t0 (str "Avoid alcohol.") c4Med
      (by decide) (by decide) (by decide)⟩
